import Mathlib

/-
  Shallow embedding of src/iris/bin/sync_targets_bol.py: the reconciliation
  and plan-derivation engine of the iris sync daemon.

  Conventions used throughout:
  - python dicts are association lists with first-match lookup;
  - mutating SQL statements issued to the store are recorded as `Effect`
    values, in issue order;
  - python exceptions are values of `PyErr`; a function that can raise
    returns `Except PyErr _`, and an uncaught exception propagates as the
    `.error` case;
  - logger calls are tracked only for the constant message texts that the
    theorems below mention; purely informational logging is elided.
-/

set_option maxHeartbeats 1000000

namespace IrisSync

/-- Python exception values raised by the embedded code.  `numberParseExc`
is phonenumbers NumberParseException, which subclasses Exception directly
(not ValueError). -/
inductive PyErr where
  | keyError (key : String)
  | httpBadRequest (title : String)
  | typeError
  | indexError
  | sysExit
  | numberParseExc
  | valueErr
  | requestExc
deriving DecidableEq

/-- First-match lookup in an association list (python dict read access). -/
def lookupStr {α : Type} (d : List (String × α)) (k : String) : Option α :=
  match d with
  | [] => none
  | kv :: rest => if kv.1 = k then some kv.2 else lookupStr rest k

/-- In-place value update of an association list (python dict item
assignment); appends when the key is new. -/
def dictSet {α : Type} (d : List (String × α)) (k : String) (v : α) : List (String × α) :=
  match d with
  | [] => [(k, v)]
  | kv :: rest => if kv.1 = k then (kv.1, v) :: rest else kv :: dictSet rest k v

/-- python dict.update: values of `base` overridden by `upd`, new keys of
`upd` appended. -/
def dictUpdate {α : Type} (base upd : List (String × α)) : List (String × α) :=
  (base.map (fun kv =>
    match lookupStr upd kv.1 with
    | some v => (kv.1, v)
    | none => kv)) ++ upd.filter (fun kv => (lookupStr base kv.1).isNone)

/-!  python string primitives.  The core String.replace/splitOn are
defined by well-founded recursion, which the kernel does not reduce, so
the python semantics (str.replace replaces every non-overlapping
occurrence left to right; str.split breaks at every separator) is embedded
here by structural recursion on a character-count fuel, making every
theorem below checkable by evaluation. -/

def replaceCharsAux (pat rep : List Char) : Nat → List Char → List Char
  | _, [] => []
  | 0, l => l
  | fuel + 1, c :: rest =>
    if pat ≠ [] ∧ (c :: rest).take pat.length = pat then
      rep ++ replaceCharsAux pat rep fuel (rest.drop (pat.length - 1))
    else c :: replaceCharsAux pat rep fuel rest

/-- python str.replace(pat, rep) (all occurrences). -/
def pyReplace (s pat rep : String) : String :=
  ⟨replaceCharsAux pat.data rep.data s.data.length s.data⟩

def splitCharAux (sep : Char) : Nat → List Char → List Char → List (List Char)
  | _, acc, [] => [acc.reverse]
  | 0, acc, l => [acc.reverse ++ l]
  | fuel + 1, acc, c :: rest =>
    if c = sep then acc.reverse :: splitCharAux sep fuel [] rest
    else splitCharAux sep fuel (c :: acc) rest

/-- python str.split(sep) for a one-character separator. -/
def pySplit (s : String) (sep : Char) : List String :=
  (splitCharAux sep s.data.length [] s.data).map (fun l => ⟨l⟩)

/-- python str.startswith. -/
def pyStartsWith (s pre : String) : Bool :=
  decide (s.data.take pre.data.length = pre.data)

-- Module level constants of sync_targets_bol.py (lines 37-60).

/-- scrumteam_prefix in the source: used to detect scrumteams vs itops teams. -/
def scrumteamPfx : String := "team"

def immutable_suffix : String := "-builtin"

def srt_suffix : String := "-withsrt"

def mod_suffix : String := "-withmod"

def private_suffix : String := "-private"

def middleware_team : String := "middleware"

def mod_team : String := "mod"

def timeperiods : List String := ["workhours", "standby", "24x7", "businesshours"]

def default_template : String := "default"

def default_wait : Nat := 1800

def default_repeat_count : Nat := 0

def default_escalation_repeat : Nat := 1

def default_escalation_wait : Nat := 900

def default_priority : String := "high"

def default_standby_escalation_priority : String := "urgent"

/-- One plan-notification step template (the step dicts of
default_*_plan_steps). `rep` embeds the python dict key `repeat`. -/
structure Step where
  priority : String
  rep : Nat
  role : String
  target : Option String
  template : String
  wait : Nat
deriving DecidableEq

def scrum_step_0_0 : Step :=
  ⟨default_priority, default_repeat_count, "oncall-primary-exclude-holidays", none, default_template, default_wait⟩

def scrum_step_0_1 : Step :=
  ⟨default_priority, default_repeat_count, "oncall-primary", none, default_template, default_wait⟩

def scrum_step_1_0 : Step :=
  ⟨default_priority, default_escalation_repeat, "oncall-primary-exclude-holidays", none, default_template, default_escalation_wait⟩

def scrum_step_1_1 : Step :=
  ⟨default_standby_escalation_priority, default_escalation_repeat, "oncall-primary", none, default_template, default_escalation_wait⟩

def scrum_step_2_0 : Step :=
  ⟨default_standby_escalation_priority, default_escalation_repeat, "oncall-primary", none, default_template, default_escalation_wait⟩

/-- default_scrumteam_plan_steps (source lines 77-124). -/
def default_scrumteam_plan_steps : List (List Step) :=
  [[scrum_step_0_0, scrum_step_0_1], [scrum_step_1_0, scrum_step_1_1], [scrum_step_2_0]]

def standby_step_0 : Step :=
  ⟨default_priority, default_repeat_count, "oncall-primary", none, default_template, default_wait⟩

def standby_step_esc : Step :=
  ⟨default_standby_escalation_priority, default_escalation_repeat, "oncall-primary", none, default_template, default_escalation_wait⟩

/-- default_standby_plan_steps (source lines 126-157); its second and third
levels hold identical step dicts. -/
def default_standby_plan_steps : List (List Step) :=
  [[standby_step_0], [standby_step_esc], [standby_step_esc]]

def private_step_0 : Step :=
  ⟨default_priority, default_repeat_count, "oncall-primary", none, default_template, default_wait⟩

/-- default_private_plan_steps (source lines 158-169). -/
def default_private_plan_steps : List (List Step) :=
  [[private_step_0]]

/-- The python subscript assignment all_steps[i][j]["target"] = t. -/
def setStepTarget (steps : List (List Step)) (i j : Nat) (t : Option String) : List (List Step) :=
  match steps.get? i with
  | none => steps
  | some row =>
    match row.get? j with
    | none => steps
    | some s => steps.set i (row.set j { s with target := t })

/-- get_default_plan_steps (source lines 781-816); returns
(plan_description, step_count, all_steps).  The `team` argument is used by
the source only in log messages and is ignored here. -/
def get_default_plan_steps (team plan_type : String)
    (target_team standby_team escalation_team standby_escalation_team : Option String) :
    String × Nat × List (List Step) :=
  if plan_type = "withsrt-24x7" then
    let all_steps :=
      setStepTarget (setStepTarget (setStepTarget (setStepTarget (setStepTarget
        default_scrumteam_plan_steps 0 0 target_team) 0 1 standby_team)
        1 0 escalation_team) 1 1 standby_team) 2 0 standby_escalation_team
    ("Escalation and after hours support by SRT, EOD and MOD", 3, all_steps)
  else if plan_type = "withmod-standby" then
    let all_steps :=
      setStepTarget (setStepTarget (setStepTarget
        default_standby_plan_steps 0 0 target_team) 1 0 escalation_team) 2 0 escalation_team
    ("Standby plan with escalation (24x7)", 3, all_steps)
  else if plan_type = "private-workhours" ∨ plan_type = "private-businesshours" ∨ plan_type = "private-24x7" then
    let all_steps := setStepTarget default_private_plan_steps 0 0 target_team
    ("Simple plan without escalation (" ++ (pySplit plan_type '-').getLastD "" ++ ")", 1, all_steps)
  else
    ("", 1, [])

/-- One derived plan specification: the dicts appended to `plans` by
get_default_plans. -/
structure PlanSpec where
  name : String
  description : String
  step_count : Nat
  all_steps : List (List Step)
  type : String
deriving DecidableEq

/-- The base team name computed at the top of get_default_plans
(source lines 1007-1008): remove every occurrence of "-builtin", then keep
only the part before the first "-". -/
def bol_teamname (team : String) : String :=
  (pySplit (pyReplace team immutable_suffix "") '-').headD ""

/-- get_default_plans (source lines 1004-1113).  `scrumteams` maps a team
name to its "space" entry (the only key of the yaml table the source
reads).  The uncaught KeyError raised by space_to_srt_mapping[space] is the
`.error` case. -/
def get_default_plans (space_to_srt_mapping : List (String × String)) (team : String)
    (platform_teams standby_teams standby_escalation_teams : List String)
    (scrumteams : List (String × String)) : Except PyErr (List PlanSpec) :=
  let bol := bol_teamname team
  let private_24x7_planname := bol ++ "-24x7" ++ private_suffix ++ immutable_suffix
  let private_24x7_teamname := bol ++ "-24x7" ++ immutable_suffix
  let private_workhours_planname := bol ++ "-workhours" ++ private_suffix ++ immutable_suffix
  let private_workhours_teamname := bol ++ "-workhours" ++ immutable_suffix
  let private_businesshours_planname := bol ++ "-businesshours" ++ private_suffix ++ immutable_suffix
  let private_businesshours_teamname := bol ++ "-businesshours" ++ immutable_suffix
  if platform_teams.contains bol then
    -- branch comment in the source: private 24x7 and private workhours are
    -- default; the branch body is `pass`
    Except.ok []
  else if standby_teams.contains bol then
    let withmod_planname := bol ++ "-24x7" ++ mod_suffix ++ immutable_suffix
    let withmod_teamname := bol ++ "-workhours" ++ immutable_suffix
    let escalation_team := mod_team ++ "-24x7" ++ immutable_suffix
    let r1 := get_default_plan_steps team "withmod-standby" (some withmod_teamname) none (some escalation_team) none
    let withmod_businesshours_planname := bol ++ "-businesshours" ++ mod_suffix ++ immutable_suffix
    let withmod_businesshours_teamname := bol ++ "-workhours" ++ immutable_suffix
    let escalation_team2 := mod_team ++ "-businesshours" ++ immutable_suffix
    let r2 := get_default_plan_steps team "withmod-standby" (some withmod_businesshours_teamname) none (some escalation_team2) none
    Except.ok
      [⟨withmod_planname, r1.1, r1.2.1, r1.2.2, "withmod-standby"⟩,
       ⟨withmod_businesshours_planname, r2.1, r2.2.1, r2.2.2, "withmod-businesshours"⟩]
  else if standby_escalation_teams.contains bol then
    -- branch comment in the source: private 24x7 is default; body is `pass`
    Except.ok []
  else if pyStartsWith team scrumteamPfx then
    let scrum_part : Except PyErr (List PlanSpec) :=
      match lookupStr scrumteams bol with
      | some space =>
        match lookupStr space_to_srt_mapping space with
        | none => Except.error (PyErr.keyError space)
        | some srt0 =>
          let srt := srt0 ++ immutable_suffix
          let withsrt_planname := bol ++ "-24x7" ++ srt_suffix ++ immutable_suffix
          let withsrt_teamname := bol ++ "-workhours" ++ immutable_suffix
          let standby_team := middleware_team ++ "-standby" ++ immutable_suffix
          let standby_escalation_team := mod_team ++ "-standby" ++ immutable_suffix
          let s1 := get_default_plan_steps team "withsrt-24x7" (some withsrt_teamname) (some standby_team) (some srt) (some standby_escalation_team)
          let withsrt_businesshours_planname := bol ++ "-businesshours" ++ srt_suffix ++ immutable_suffix
          let withsrt_businesshours_teamname := bol ++ "-workhours" ++ immutable_suffix
          let standby_team2 := middleware_team ++ "-businesshours" ++ immutable_suffix
          let standby_escalation_team2 := mod_team ++ "-businesshours" ++ immutable_suffix
          let s2 := get_default_plan_steps team "withsrt-24x7" (some withsrt_businesshours_teamname) (some standby_team2) (some srt) (some standby_escalation_team2)
          Except.ok
            [⟨withsrt_planname, s1.1, s1.2.1, s1.2.2, "withsrt-24x7"⟩,
             ⟨withsrt_businesshours_planname, s2.1, s2.2.1, s2.2.2, "withsrt-businesshours"⟩]
      | none => Except.ok []
    match scrum_part with
    | Except.error e => Except.error e
    | Except.ok scrumplans =>
      let q1 := get_default_plan_steps team "private-24x7" (some private_24x7_teamname) none none none
      let q2 := get_default_plan_steps team "private-businesshours" (some private_businesshours_teamname) none none none
      let q3 := get_default_plan_steps team "private-workhours" (some private_workhours_teamname) none none none
      Except.ok (scrumplans ++
        [⟨private_24x7_planname, q1.1, q1.2.1, q1.2.2, "private-24x7"⟩,
         ⟨private_businesshours_planname, q2.1, q2.2.1, q2.2.2, "private-businesshours"⟩,
         ⟨private_workhours_planname, q3.1, q3.2.1, q3.2.2, "private-workhours"⟩])
  else
    Except.ok []

/-!  Plan comparison (source lines 416-741).  The stored side lives in the
database, reached through the `DbEnv` oracle, which models the row-level
read queries of the source (get_target, get_priority_id,
get_target_role_name, the plan_notification select). -/

/-- A plan-notification dict in the shape both sides of the comparison are
brought to by valid_plan/get_plan_notification: the step number removed,
`target` a target id (or python False, modeled `none`, when get_target
found nothing), `priority` and `role` resolved to names (or python False).
`rep` embeds the python dict key `repeat`. -/
structure NStep where
  priority : Option String
  rep : Nat
  role : Option String
  target : Option Nat
  template : String
  wait : Nat
deriving DecidableEq

/-- same_steps (source lines 733-740): equal lists, or one the exact
reverse of the other. -/
def same_steps (is_step should_step : List NStep) : Bool :=
  if should_step ≠ is_step ∧ should_step.reverse ≠ is_step then false else true

/-- The plan fields surviving clean_plan: every other selected column is in
ignore_plan_fields (source lines 171-189) and is popped before the
comparison. -/
structure CleanPlan where
  description : String
  step_count : Nat
deriving DecidableEq

/-- same_plan (source lines 725-730): cmp(should, is) == 0. -/
def same_plan (is_plan should_plan : CleanPlan) : Bool :=
  decide (should_plan = is_plan)

/-- A stored `plan` row (joined with plan_active by get_plan), keeping its
id and the two columns that survive clean_plan. -/
structure StoredPlan where
  id : Nat
  description : String
  step_count : Nat
deriving DecidableEq

/-- A raw `plan_notification` row as selected by get_plan_notification,
after the ignored columns (id, plan_id, dynamic_index) are dropped.
`rep` embeds the column `repeat`. -/
structure RawNotif where
  step : Nat
  priority_id : Nat
  target_id : Nat
  role_id : Nat
  template : String
  rep : Nat
  wait : Nat
deriving DecidableEq

/-- Read-side database oracle for the comparison functions. -/
structure DbEnv where
  /-- get_target (source lines 618-637): team target id by name, or python
  False when absent; the argument is the step dict target value. -/
  get_target : Option String → Option Nat
  /-- get_priority_id (source lines 513-531): priority name by id. -/
  get_priority_name : Nat → Option String
  /-- get_target_role_name (source lines 576-594): role name by id. -/
  get_role_name : Nat → Option String
  /-- The rows of SELECT * FROM plan_notification WHERE plan_id = %s. -/
  plan_notifications : Nat → List RawNotif

/-- The per-row transformation of get_plan_notification (source lines
483-493). -/
def nstep_of_raw (db : DbEnv) (r : RawNotif) : NStep :=
  ⟨db.get_priority_name r.priority_id, r.rep, db.get_role_name r.role_id,
   some r.target_id, r.template, r.wait⟩

/-- get_plan_notification (source lines 466-510): `none` is the python
False returned when no rows exist; otherwise rows are grouped by step
level with the step number removed.  The iteration order of the python
set of step levels is modeled as ascending, which is what CPython's small
int sets produce. -/
def get_plan_notification (db : DbEnv) (plan_id : Nat) : Option (List (List NStep)) :=
  let raw := db.plan_notifications plan_id
  if raw = [] then none
  else
    let levels := List.insertionSort (fun a b => a ≤ b) (raw.map (fun r => r.step)).dedup
    some (levels.map (fun lv =>
      (raw.filter (fun r => r.step = lv)).map (nstep_of_raw db)))

/-- Template step dict converted to the comparison shape with its target
replaced by a resolved target id, as valid_plan builds
should_notification. -/
def nstep_of (s : Step) (tgt : Option Nat) : NStep :=
  ⟨some s.priority, s.rep, some s.role, tgt, s.template, s.wait⟩

/-- should_notification of the withsrt branches of valid_plan (source
lines 659-664). -/
def scrum_should_notification (team eod srt modid : Option Nat) : List (List NStep) :=
  [[nstep_of scrum_step_0_0 team, nstep_of scrum_step_0_1 eod],
   [nstep_of scrum_step_1_0 srt, nstep_of scrum_step_1_1 eod],
   [nstep_of scrum_step_2_0 modid]]

/-- should_notification of the withmod branches of valid_plan (source
lines 671-674). -/
def standby_should_notification (team modid : Option Nat) : List (List NStep) :=
  [[nstep_of standby_step_0 team],
   [nstep_of standby_step_esc modid],
   [nstep_of standby_step_esc modid]]

/-- should_notification of the private branches of valid_plan (source
lines 678-689). -/
def private_should_notification (team : Option Nat) : List (List NStep) :=
  [[nstep_of private_step_0 team]]

/-- python list index steps[i][j], `none` when out of range (IndexError). -/
def stepAt (ss : List (List Step)) (i j : Nat) : Option Step :=
  (ss.get? i).bind (fun row => row.get? j)

/-- The comparison loop of valid_plan (source lines 704-706):
enumerate(should_notification) with is_notification indexed by the same
level; a missing index is an uncaught IndexError.  A False same_steps only
clears retval, the loop keeps going. -/
def compare_levels (is_n : List (List NStep)) : List (List NStep) → Nat → Except PyErr Bool
  | [], _ => Except.ok true
  | g :: rest, i =>
    match is_n.get? i with
    | none => Except.error PyErr.indexError
    | some ig =>
      match compare_levels is_n rest (i + 1) with
      | Except.error e => Except.error e
      | Except.ok b => Except.ok (same_steps g ig && b)

/-- valid_plan (source lines 640-711).  The unknown plan type branch calls
sys.exit(1), modeled `.error .sysExit`; index accesses into
default_plan.all_steps that would raise IndexError are `.error
.indexError`. -/
def valid_plan (db : DbEnv) (plan : StoredPlan) (team : String)
    (default_plan : PlanSpec) (plan_type : String) : Except PyErr Bool :=
  let is_plan : CleanPlan := ⟨plan.description, plan.step_count⟩
  match stepAt default_plan.all_steps 0 0 with
  | none => Except.error PyErr.indexError
  | some s00 =>
    let team_target_id := db.get_target s00.target
    let hours := (pySplit plan_type '-').getLastD ""
    let branch : Except PyErr (CleanPlan × List (List NStep)) :=
      if plan_type = "withsrt-24x7" ∨ plan_type = "withsrt-businesshours" then
        match stepAt default_plan.all_steps 0 1, stepAt default_plan.all_steps 1 0,
              stepAt default_plan.all_steps 2 0 with
        | some s01, some s10, some s20 =>
          let eod_target_id := db.get_target s01.target
          let srt_target_id := db.get_target s10.target
          let mod_target_id := db.get_target s20.target
          Except.ok (⟨"Escalation and after hours support by SRT, EOD and MOD", 3⟩,
            scrum_should_notification team_target_id eod_target_id srt_target_id mod_target_id)
        | _, _, _ => Except.error PyErr.indexError
      else if plan_type = "withmod-standby" ∨ plan_type = "withmod-businesshours" then
        match stepAt default_plan.all_steps 1 0 with
        | some s10 =>
          let mod_target_id := db.get_target s10.target
          Except.ok (⟨"Standby plan with escalation (24x7)", 3⟩,
            standby_should_notification team_target_id mod_target_id)
        | none => Except.error PyErr.indexError
      else if plan_type = "private-workhours" ∨ plan_type = "private-businesshours" ∨
              plan_type = "private-24x7" then
        Except.ok (⟨"Simple plan without escalation (" ++ hours ++ ")", 1⟩,
          private_should_notification team_target_id)
      else Except.error PyErr.sysExit
    match branch with
    | Except.error e => Except.error e
    | Except.ok (should_plan, should_notification) =>
      let retval1 := same_plan should_plan is_plan
      match get_plan_notification db plan.id with
      | none => Except.ok false
      | some is_notification =>
        match compare_levels is_notification should_notification 0 with
        | Except.error e => Except.error e
        | Except.ok allsame => Except.ok (retval1 && allsame)

/-!  Effects: the mutating SQL statements the engine issues, in issue
order.  Statements executed inside an uncommitted session that is closed
after an exception (create_plan) are not recorded, since they are rolled
back. -/

inductive Effect where
  | insertUserTarget (name : String)
  | insertUserRow (name : String)
  | upsertContact (user mode dest : String)
  | updateContact (user mode dest : String)
  | insertContact (user mode dest : String)
  | deleteContact (user mode : String)
  | insertTeamTarget (name : String)
  | insertPlan (name descr : String) (step_count : Nat)
  | insertStep (plan_id step priority_id : Nat) (target : Option String) (role_id : Nat)
      (template : String) (rep wait : Nat)
  | upsertPlanActive (name : String) (plan_id : Nat)
  | deleteTarget (name ty : String)
  | setTargetInactive (name ty : String)
  | deactivatePlan (plan_id : Nat)
deriving DecidableEq

/-- The observable outcome of a code path: statements issued, tracked log
lines, and the uncaught exception it ended with, if any. -/
structure Run where
  effects : List Effect
  logs : List String
  err : Option PyErr
deriving DecidableEq

def Run.pure0 : Run := ⟨[], [], none⟩

def Run.ofLogs (msgs : List String) : Run := ⟨[], msgs, none⟩

def Run.ofErr (e : PyErr) : Run := ⟨[], [], some e⟩

/-- Sequencing: the continuation runs only when no exception has
propagated. -/
def Run.andThen (r : Run) (k : Unit → Run) : Run :=
  match r.err with
  | some _ => r
  | none =>
    let s := k ()
    ⟨r.effects ++ s.effects, r.logs ++ s.logs, s.err⟩

/-- A python for loop over a list, stopping at the first uncaught
exception. -/
def run_list {α : Type} (f : α → Run) : List α → Run
  | [] => Run.pure0
  | x :: xs => Run.andThen (f x) (fun _ => run_list f xs)

def Run.ofExcept (r : Except PyErr (List Effect)) : Run :=
  match r with
  | Except.error e => ⟨[], [], some e⟩
  | Except.ok es => ⟨es, [], none⟩

/-!  create_plan (source lines 819-914). -/

/-- Database context for create_plan: the process wide caches plus the
roles allowed for a named target (get_allowed_roles_query) and the
lastrowid handed to the new plan row. -/
structure CreatePlanEnv where
  /-- cache_target_roles: role name to id. -/
  target_roles : List (String × Nat)
  /-- cache_priorities: priority name to id (only the id field of the
  cached row is read by create_plan). -/
  priorities : List (String × Nat)
  /-- Role ids applicable to the named target; empty when the target row
  does not exist. -/
  allowed_roles : Option String → List Nat
  /-- Whether REPLACE INTO plan_notification raises IntegrityError for
  this target at this step index. -/
  step_insert_integrity : Option String → Nat → Bool
  /-- lastrowid of the REPLACE INTO plan. -/
  new_plan_id : Nat

/-- The inner loop body of create_plan over the steps of one level
(source lines 874-907). -/
def create_plan_group (cp : CreatePlanEnv) (plan_id idx : Nat) :
    List Step → Except PyErr (List Effect)
  | [] => Except.ok []
  | s :: rest =>
    let role := lookupStr cp.target_roles s.role
    match lookupStr cp.priorities s.priority with
    | none => Except.error PyErr.typeError
    | some priority_id =>
      let allowed := cp.allowed_roles s.target
      if allowed = [] then
        Except.error (PyErr.httpBadRequest "Invalid plan")
      else
        match role with
        | none => Except.error (PyErr.httpBadRequest "Invalid role")
        | some role_id =>
          if ¬ allowed.contains role_id then
            Except.error (PyErr.httpBadRequest "Invalid role")
          else if cp.step_insert_integrity s.target idx then
            Except.error (PyErr.httpBadRequest "Invalid plan")
          else
            match create_plan_group cp plan_id idx rest with
            | Except.error e => Except.error e
            | Except.ok es =>
              Except.ok (Effect.insertStep plan_id idx priority_id s.target role_id
                s.template s.rep s.wait :: es)

/-- The outer loop of create_plan: enumerate(all_steps, start=1). -/
def create_plan_steps (cp : CreatePlanEnv) (plan_id idx : Nat) :
    List (List Step) → Except PyErr (List Effect)
  | [] => Except.ok []
  | g :: rest =>
    match create_plan_group cp plan_id idx g with
    | Except.error e => Except.error e
    | Except.ok es =>
      match create_plan_steps cp plan_id (idx + 1) rest with
      | Except.error e => Except.error e
      | Except.ok es2 => Except.ok (es ++ es2)

/-- create_plan: plan row replace, validated step inserts, active pointer
upsert, all committed together; on a validation error the session is
closed uncommitted, so nothing is recorded and the HTTPBadRequest
propagates.  `team` is used by the source only in log messages. -/
def create_plan (cp : CreatePlanEnv) (team plan_name : String)
    (all_steps : List (List Step)) (step_count : Nat) (plan_description : String) :
    Except PyErr (List Effect) :=
  let plan_id := cp.new_plan_id
  match create_plan_steps cp plan_id 1 all_steps with
  | Except.error e => Except.error e
  | Except.ok es =>
    Except.ok (Effect.insertPlan plan_name plan_description step_count :: es ++
      [Effect.upsertPlanActive plan_name plan_id])

/-!  Phone normalization and the roster client (source lines 274-348). -/

/-- normalize_phone_number: the phonenumbers parse/format pipeline is an
oracle; `none` is a NumberParseException raise. -/
def normalize_phone_number (oracle : String → Option String) (num : String) :
    Except PyErr String :=
  match oracle num with
  | some s => Except.ok s
  | none => Except.error PyErr.numberParseExc

/-- The sms/call handling of fix_user_contacts for one key: an empty or
missing value is falsy and left alone. -/
def fix_contact_key (oracle : String → Option String) (contacts : List (String × String))
    (key : String) : Except PyErr (List (String × String)) :=
  match lookupStr contacts key with
  | some v =>
    if v = "" then Except.ok contacts
    else
      match normalize_phone_number oracle v with
      | Except.error e => Except.error e
      | Except.ok nv => Except.ok (dictSet contacts key nv)
  | none => Except.ok contacts

/-- fix_user_contacts (source lines 339-348). -/
def fix_user_contacts (oracle : String → Option String) (contacts : List (String × String)) :
    Except PyErr (List (String × String)) :=
  match fix_contact_key oracle contacts "sms" with
  | Except.error e => Except.error e
  | Except.ok c1 => fix_contact_key oracle c1 "call"

/-- One user of the roster JSON payload. -/
structure OncallUser where
  name : String
  active : Bool
  contacts : List (String × String)
deriving DecidableEq

/-- Result of the HTTP GET plus .json() in a fetch function:
`transportError` stands for any requests.exceptions.RequestException,
ValueError (bad JSON) or KeyError the except clause names. -/
inductive FetchUsersOutcome where
  | transportError
  | ok (users : List OncallUser)

inductive FetchTeamsOutcome where
  | transportError
  | ok (names : List String)

/-- The dict comprehension of fetch_users_from_oncall. -/
def build_oncall_users (oracle : String → Option String) :
    List OncallUser → Except PyErr (List (String × List (String × String)))
  | [] => Except.ok []
  | u :: rest =>
    if u.active then
      match fix_user_contacts oracle u.contacts with
      | Except.error e => Except.error e
      | Except.ok c =>
        match build_oncall_users oracle rest with
        | Except.error e => Except.error e
        | Except.ok l => Except.ok ((u.name, c) :: l)
    else build_oncall_users oracle rest

/-- The exception types named by the except clause of
fetch_users_from_oncall: (ValueError, KeyError, RequestException).
NumberParseException subclasses Exception directly, so it is not among
them. -/
def users_fetch_catches : PyErr → Bool
  | PyErr.valueErr => true
  | PyErr.keyError _ => true
  | PyErr.requestExc => true
  | _ => false

/-- fetch_users_from_oncall (source lines 328-336): total on transport and
schema errors (empty dict), but an exception its except clause does not
name propagates. -/
def fetch_users_from_oncall (oracle : String → Option String) (outcome : FetchUsersOutcome) :
    Except PyErr (List (String × List (String × String))) :=
  match outcome with
  | FetchUsersOutcome.transportError => Except.ok []
  | FetchUsersOutcome.ok users =>
    match build_oncall_users oracle users with
    | Except.error e => if users_fetch_catches e then Except.ok [] else Except.error e
    | Except.ok l => Except.ok l

/-- fetch_teams_from_oncall (source lines 320-325): total, empty list on
any transport or parse failure. -/
def fetch_teams_from_oncall (outcome : FetchTeamsOutcome) : List String :=
  match outcome with
  | FetchTeamsOutcome.transportError => []
  | FetchTeamsOutcome.ok names => names

/-- A preset user from configuration; absent sms/call keys are `none`. -/
structure PresetUser where
  name : String
  sms : Option String
  call : Option String
deriving DecidableEq

/-- The per-key handling of get_predefined_users: KeyError (absent),
NumberParseException and AttributeError all collapse the value to None. -/
def preset_contact (oracle : String → Option String) (v : Option String) : Option String :=
  match v with
  | none => none
  | some s => oracle s

/-- get_predefined_users (source lines 279-296); the returned dict values
are the full user dicts with their sms/call entries normalized or
nulled. -/
def get_predefined_users (oracle : String → Option String)
    (preset : Option (List PresetUser)) : List (String × List (String × Option String)) :=
  match preset with
  | none => []
  | some users =>
    users.map (fun u =>
      (u.name, [("name", some u.name), ("sms", preset_contact oracle u.sms),
                ("call", preset_contact oracle u.call)]))

/-!  prune_target (source lines 299-317). -/

/-- What the store reports for DELETE FROM target. -/
inductive DeleteOutcome where
  | ok
  | integrityError
  | sqlError
deriving DecidableEq

/-- prune_target: hard delete, falling back to marking inactive on
IntegrityError, and merely logging any other SQLAlchemyError; it never
lets an exception propagate. -/
def prune_target (delete_result : String → String → DeleteOutcome)
    (target_name target_type : String) : Run :=
  match delete_result target_name target_type with
  | DeleteOutcome.ok => ⟨[Effect.deleteTarget target_name target_type], [], none⟩
  | DeleteOutcome.integrityError =>
    ⟨[Effect.deleteTarget target_name target_type,
      Effect.setTargetInactive target_name target_type], [], none⟩
  | DeleteOutcome.sqlError => ⟨[Effect.deleteTarget target_name target_type], [], none⟩

/-!  sync_from_oncall (source lines 1116-1239) and its helpers. -/

/-- insert_user (source lines 934-956): upsert the target row, insert the
user row, then one contact upsert per truthy contact whose key is a known
mode. -/
def insert_user_run (modes : List (String × Nat))
    (oncall_users : List (String × List (String × Option String))) (username : String) : Run :=
  let contacts := (lookupStr oncall_users username).getD []
  ⟨Effect.insertUserTarget username :: Effect.insertUserRow username ::
     contacts.filterMap (fun kv =>
       match kv.2 with
       | some v =>
         if v ≠ "" ∧ (lookupStr modes kv.1).isSome then
           some (Effect.upsertContact username kv.1 v)
         else none
       | none => none),
   [], none⟩

/-- update_user (source lines 971-999): per mode, insert a missing
contact, update a changed one, delete one the upstream no longer has. -/
def update_user_run (username : String)
    (iris_users : List (String × List (String × String)))
    (oncall_users : List (String × List (String × Option String)))
    (modes : List (String × Nat)) : Run :=
  let db_contacts := (lookupStr iris_users username).getD []
  let oncall_contacts := (lookupStr oncall_users username).getD []
  ⟨modes.filterMap (fun m =>
     match lookupStr oncall_contacts m.1 with
     | some (some v) =>
       if v ≠ "" then
         match lookupStr db_contacts m.1 with
         | some d => if v ≠ d then some (Effect.updateContact username m.1 v) else none
         | none => some (Effect.insertContact username m.1 v)
       else
         if (lookupStr db_contacts m.1).isSome then some (Effect.deleteContact username m.1)
         else none
     | some none =>
       if (lookupStr db_contacts m.1).isSome then some (Effect.deleteContact username m.1)
       else none
     | none =>
       if (lookupStr db_contacts m.1).isSome then some (Effect.deleteContact username m.1)
       else none),
   [], none⟩

/-- insert_team (source lines 959-968). -/
def insert_team_run (team : String) : Run :=
  ⟨[Effect.insertTeamTarget team], [], none⟩

/-- The bol_teams normalization of sync_from_oncall (source lines
1204-1210): remove every occurrence of "-builtin" and of each
"-timeperiod". -/
def strip_team_name (team : String) : String :=
  timeperiods.foldl (fun t tp => pyReplace t ("-" ++ tp) "") (pyReplace team immutable_suffix "")

/-- Everything sync_from_oncall reads from configuration, the roster
service and the store; function-valued fields are the read queries.
A missing or unreadable scrumteams yaml file is out of scope: the yaml
outcome covers only yaml.YAMLError (caught, table left empty). -/
structure SyncEnv where
  scrumteams_yaml : Except Unit (List (String × String))
  oncall_base_url : Option String
  users_fetch : FetchUsersOutcome
  teams_fetch : FetchTeamsOutcome
  phoneOracle : String → Option String
  preset_users : Option (List PresetUser)
  iris_users : List (String × List (String × String))
  modes : List (String × Nat)
  iris_team_names : List String
  platform_teams : List String
  standby_teams : List String
  standby_escalation_teams : List String
  space_to_srt : List (String × String)
  get_plan : String → Option StoredPlan
  plan_ids : String → Option Nat
  db : DbEnv
  cp : CreatePlanEnv
  delete_result : String → String → DeleteOutcome
  noop : Bool
  purge_old_users : Bool

def scrumteamsOf (env : SyncEnv) : List (String × String) :=
  match env.scrumteams_yaml with
  | Except.ok m => m
  | Except.error _ => []

def get_default_plans_env (env : SyncEnv) (team : String) : Except PyErr (List PlanSpec) :=
  get_default_plans env.space_to_srt team env.platform_teams env.standby_teams
    env.standby_escalation_teams (scrumteamsOf env)

/-- The plan provisioning loop body for one freshly inserted team
(source lines 1213-1215). -/
def provision_team (env : SyncEnv) (team : String) : Run :=
  match get_default_plans_env env team with
  | Except.error e => Run.ofErr e
  | Except.ok plans =>
    run_list (fun p => Run.ofExcept
      (create_plan env.cp team p.name p.all_steps p.step_count p.description)) plans

/-- The plan validation loop body for one team present on both sides
(source lines 1219-1223). -/
def update_team (env : SyncEnv) (team : String) : Run :=
  match get_default_plans_env env team with
  | Except.error e => Run.ofErr e
  | Except.ok plans =>
    run_list (fun dp =>
      match env.get_plan dp.name with
      | none => Run.ofExcept
          (create_plan env.cp team dp.name dp.all_steps dp.step_count dp.description)
      | some actual =>
        match valid_plan env.db actual team dp dp.type with
        | Except.error e => Run.ofErr e
        | Except.ok true => Run.pure0
        | Except.ok false => Run.ofExcept
            (create_plan env.cp team dp.name dp.all_steps dp.step_count dp.description)) plans

/-- The deactivation body for one team absent upstream (source lines
1230-1236): prune the target, then drop the active pointer of every plan
its classification would have produced. -/
def deactivate_team (env : SyncEnv) (team : String) : Run :=
  Run.andThen (prune_target env.delete_result team "team") (fun _ =>
    match get_default_plans_env env team with
    | Except.error e => Run.ofErr e
    | Except.ok plans =>
      ⟨plans.filterMap (fun p => (env.plan_ids p.name).map Effect.deactivatePlan), [], none⟩)

/-- The oncall user dict after oncall_users.update(get_predefined_users)
(source line 1153); roster contact values become dict values. -/
def oncall_users_merged (env : SyncEnv)
    (oncall_users0 : List (String × List (String × String))) :
    List (String × List (String × Option String)) :=
  dictUpdate (oncall_users0.map (fun p => (p.1, p.2.map (fun kv => (kv.1, some kv.2)))))
    (get_predefined_users env.phoneOracle env.preset_users)

/-- users_to_insert (source line 1157), in oncall dict order. -/
def users_to_insert_of (env : SyncEnv)
    (oncall_users0 : List (String × List (String × String))) : List String :=
  ((oncall_users_merged env oncall_users0).map (fun p => p.1)).filter
    (fun u => !(env.iris_users.map (fun p => p.1)).contains u)

/-- users_to_update (source line 1159), in iris dict order. -/
def users_to_update_of (env : SyncEnv)
    (oncall_users0 : List (String × List (String × String))) : List String :=
  (env.iris_users.map (fun p => p.1)).filter
    (fun u => ((oncall_users_merged env oncall_users0).map (fun p => p.1)).contains u)

/-- users_to_mark_inactive (source line 1160). -/
def users_to_mark_inactive_of (env : SyncEnv)
    (oncall_users0 : List (String × List (String × String))) : List String :=
  (env.iris_users.map (fun p => p.1)).filter
    (fun u => !((oncall_users_merged env oncall_users0).map (fun p => p.1)).contains u)

/-- The user insert and update loops (source lines 1168-1175); these run
before the NOOP guard. -/
def user_phase (env : SyncEnv)
    (oncall_users0 : List (String × List (String × String))) : Run :=
  Run.andThen
    (run_list (insert_user_run env.modes (oncall_users_merged env oncall_users0))
      (users_to_insert_of env oncall_users0))
    (fun _ => run_list
      (fun u => update_user_run u env.iris_users (oncall_users_merged env oncall_users0) env.modes)
      (users_to_update_of env oncall_users0))

/-- set(oncall_team_names) (source line 1143). -/
def oncall_team_names_of (env : SyncEnv) : List String :=
  (fetch_teams_from_oncall env.teams_fetch).dedup

def teams_to_insert_of (env : SyncEnv) : List String :=
  (oncall_team_names_of env).filter (fun t => !env.iris_team_names.contains t)

def teams_to_update_of (env : SyncEnv) : List String :=
  (oncall_team_names_of env).filter (fun t => env.iris_team_names.contains t)

def teams_to_deactivate_of (env : SyncEnv) : List String :=
  env.iris_team_names.filter (fun t => !(oncall_team_names_of env).contains t)

/-- Team target inserts, plan provisioning for the stripped bol_teams set,
and plan validation for teams on both sides (source lines 1199-1223). -/
def team_phase (env : SyncEnv) : Run :=
  Run.andThen (run_list insert_team_run (teams_to_insert_of env)) (fun _ =>
  Run.andThen
    (run_list (provision_team env) (((teams_to_insert_of env).map strip_team_name).dedup))
    (fun _ => run_list (update_team env) (teams_to_update_of env)))

/-- The purge_old_users block (source lines 1227-1236). -/
def purge_phase (env : SyncEnv)
    (oncall_users0 : List (String × List (String × String))) : Run :=
  if env.purge_old_users then
    Run.andThen
      (run_list (fun u => prune_target env.delete_result u "user")
        (users_to_mark_inactive_of env oncall_users0))
      (fun _ => run_list (deactivate_team env) (teams_to_deactivate_of env))
  else Run.pure0

/-- sync_from_oncall after its two early-return guards (source lines
1139-1239).  Iteration order of python sets and dict views is modeled as
the underlying list order. -/
def sync_body (env : SyncEnv) (oncall_users0 : List (String × List (String × String))) : Run :=
  Run.andThen
    (Run.ofLogs (if (fetch_teams_from_oncall env.teams_fetch).isEmpty then
      ["We do not have a list of team names"] else []))
    (fun _ =>
  Run.andThen (user_phase env oncall_users0) (fun _ =>
  if env.noop then Run.ofLogs ["No Op mode enabled. No changes made."]
  else Run.andThen (team_phase env) (fun _ => purge_phase env oncall_users0)))

/-- sync_from_oncall (source lines 1116-1239): bail without touching the
store when the oncall api url is missing or the upstream user fetch came
back empty; an exception out of the user fetch propagates. -/
def sync_from_oncall (env : SyncEnv) : Run :=
  match env.oncall_base_url with
  | none =>
    Run.ofLogs ["Missing URL to oncall-api, which we use for user/team lookups. Bailing."]
  | some _ =>
    match fetch_users_from_oncall env.phoneOracle env.users_fetch with
    | Except.error e => Run.ofErr e
    | Except.ok oncall_users0 =>
      if oncall_users0.isEmpty then Run.ofLogs ["No users found. Bailing."]
      else sync_body env oncall_users0

/-!  Shared facts about `Run` composition and list loops. -/

theorem Run.andThen_ok {r : Run} (k : Unit → Run) (h : r.err = none) :
    Run.andThen r k = ⟨r.effects ++ (k ()).effects, r.logs ++ (k ()).logs, (k ()).err⟩ := by
  unfold Run.andThen
  rw [h]

theorem Run.err_andThen {r : Run} (k : Unit → Run) (h : r.err = none) :
    (Run.andThen r k).err = (k ()).err := by
  rw [Run.andThen_ok k h]

theorem Run.mem_andThen_left {r : Run} {k : Unit → Run} {e : Effect}
    (he : e ∈ r.effects) : e ∈ (Run.andThen r k).effects := by
  unfold Run.andThen
  cases h : r.err with
  | none => simpa using Or.inl he
  | some _ => simpa using he

theorem Run.mem_andThen_right {r : Run} {k : Unit → Run} {e : Effect}
    (h : r.err = none) (he : e ∈ (k ()).effects) : e ∈ (Run.andThen r k).effects := by
  rw [Run.andThen_ok k h]
  simpa using Or.inr he

theorem Run.mem_logs_andThen_left {r : Run} {k : Unit → Run} {m : String}
    (hm : m ∈ r.logs) : m ∈ (Run.andThen r k).logs := by
  unfold Run.andThen
  cases h : r.err with
  | none => simpa using Or.inl hm
  | some _ => simpa using hm

theorem run_list_err_none {α : Type} (f : α → Run) (xs : List α)
    (h : ∀ x ∈ xs, (f x).err = none) : (run_list f xs).err = none := by
  induction xs with
  | nil => rfl
  | cons y ys ih =>
    show (Run.andThen (f y) (fun _ => run_list f ys)).err = none
    rw [Run.err_andThen _ (h y (List.mem_cons_self y ys))]
    exact ih (fun z hz => h z (List.mem_cons_of_mem y hz))

theorem run_list_mem_effects {α : Type} (f : α → Run) {e : Effect} :
    ∀ (xs : List α) (x : α), x ∈ xs → (∀ y ∈ xs, (f y).err = none) →
      e ∈ (f x).effects → e ∈ (run_list f xs).effects
  | [], x, hx, _, _ => absurd hx (List.not_mem_nil x)
  | y :: ys, x, hx, hall, he => by
    show e ∈ (Run.andThen (f y) (fun _ => run_list f ys)).effects
    rcases List.mem_cons.mp hx with h1 | h1
    · exact h1 ▸ Run.mem_andThen_left he
    · exact Run.mem_andThen_right (hall y (List.mem_cons_self y ys))
        (run_list_mem_effects f ys x h1 (fun z hz => hall z (List.mem_cons_of_mem y hz)) he)

theorem filter_not_contains_nil (l : List String) :
    l.filter (fun t => !(([] : List String).contains t)) = l := by
  induction l with
  | nil => rfl
  | cons x xs ih => simp [List.filter, ih]

/-!  A small concrete world used by the closed theorems below: one active
roster user `u1` with one sms contact, a store with the standard modes and
both role and priority caches populated. -/

def sampleCp : CreatePlanEnv :=
  { target_roles := [("oncall-primary", 1), ("oncall-primary-exclude-holidays", 2)]
    priorities := [("high", 10), ("urgent", 11)]
    allowed_roles := fun _ => [1, 2]
    step_insert_integrity := fun _ _ => false
    new_plan_id := 77 }

def sampleDb : DbEnv :=
  { get_target := fun _ => some 5
    get_priority_name := fun _ => some "high"
    get_role_name := fun _ => some "oncall-primary"
    plan_notifications := fun _ => [] }

def sampleEnv : SyncEnv :=
  { scrumteams_yaml := Except.ok []
    oncall_base_url := some "http://oncall"
    users_fetch := FetchUsersOutcome.ok [⟨"u1", true, [("sms", "123")]⟩]
    teams_fetch := FetchTeamsOutcome.ok ["t1-24x7-builtin"]
    phoneOracle := fun s => some ("+31 " ++ s)
    preset_users := none
    iris_users := []
    modes := [("sms", 1), ("call", 2), ("email", 3), ("slack", 4), ("im", 5)]
    iris_team_names := []
    platform_teams := []
    standby_teams := []
    standby_escalation_teams := []
    space_to_srt := []
    get_plan := fun _ => none
    plan_ids := fun _ => none
    db := sampleDb
    cp := sampleCp
    delete_result := fun _ _ => DeleteOutcome.ok
    noop := false
    purge_old_users := true }

/-!  Claim theorems. -/

/-- Claim C1: the spec says every team, regardless of classification,
receives the baseline private plans.  The code disagrees: the private
plans are appended only inside the scrum-prefix branch of
get_default_plans, so a platform team (here `tes`, the platform team of
the repository's own test) gets no plans at all, and a standby team
(`eod`) gets only the two withmod plans and no private plan. -/
theorem C1_platform_and_standby_get_no_private_plans :
    get_default_plans [] "tes" ["tes"] [] [] [] = Except.ok [] ∧
    (get_default_plans [] "eod" [] ["eod"] [] []).map (fun l => l.map (fun p => p.name)) =
      Except.ok ["eod-24x7-withmod-builtin", "eod-businesshours-withmod-builtin"] := by
  constructor
  · rfl
  · rfl

/-- The environment of the C2 theorem: NOOP enabled, one upstream user
`u1` that is absent locally. -/
def envC2 : SyncEnv := { sampleEnv with noop := true }

/-- Claim C2: in no-op mode no mutating operation should happen.  The
user insert and update loops (source lines 1169-1175) run before the NOOP
guard (source line 1188), so user `u1` is inserted together with its
contact, after which the code logs that no changes were made. -/
theorem C2_noop_mode_still_inserts_users :
    (sync_from_oncall envC2).effects =
      [Effect.insertUserTarget "u1", Effect.insertUserRow "u1",
       Effect.upsertContact "u1" "sms" "+31 123"] ∧
    "No Op mode enabled. No changes made." ∈ (sync_from_oncall envC2).logs ∧
    (sync_from_oncall envC2).effects ≠ [] := by
  refine ⟨rfl, ?_, by decide⟩
  show "No Op mode enabled. No changes made." ∈ (sync_from_oncall envC2).logs
  have h : (sync_from_oncall envC2).logs = ["No Op mode enabled. No changes made."] := rfl
  rw [h]
  exact List.mem_singleton.mpr rfl

/-- Claim C5 counterexample: same_steps is not order-insensitive set
comparison.  Three distinct steps in a permuted (but not reversed) order
compare unequal even though the two lists are permutations of each
other. -/
theorem C5_counterexample_three_steps_permuted :
    same_steps
      [nstep_of scrum_step_0_0 (some 1), nstep_of scrum_step_0_1 (some 2),
       nstep_of scrum_step_2_0 (some 3)]
      [nstep_of scrum_step_0_1 (some 2), nstep_of scrum_step_0_0 (some 1),
       nstep_of scrum_step_2_0 (some 3)] = false ∧
    List.Perm
      [nstep_of scrum_step_0_0 (some 1), nstep_of scrum_step_0_1 (some 2),
       nstep_of scrum_step_2_0 (some 3)]
      [nstep_of scrum_step_0_1 (some 2), nstep_of scrum_step_0_0 (some 1),
       nstep_of scrum_step_2_0 (some 3)] := by
  constructor
  · decide
  · decide

/-- Claim C6 counterexample: the base team name is not obtained by
stripping only the built-in and time-period suffixes.  The code keeps only
the segment before the first hyphen, so `alpha-beta-24x7-builtin` yields
base `alpha`, and the team fails the standby membership test for
`alpha-beta` (per the claim it should match and produce the withmod
plans). -/
theorem C6_counterexample_hyphenated_base_dropped :
    bol_teamname "alpha-beta-24x7-builtin" = "alpha" ∧
    get_default_plans [] "alpha-beta-24x7-builtin" [] ["alpha-beta"] [] [] = Except.ok [] := by
  constructor
  · rfl
  · rfl

/-- Claim C7 counterexample: a scrum team whose space is missing from the
space-to-SRT mapping does not have its scrum plans skipped with a log;
the dict lookup raises an uncaught KeyError, so get_default_plans returns
no plans at all, not even the private ones. -/
theorem C7_counterexample_missing_space_raises :
    get_default_plans [] "team1" [] [] [] [("team1", "spaceX")] =
      Except.error (PyErr.keyError "spaceX") := by
  rfl

/-- Claim C5, amended: same_steps accepts exactly the identical list and
the exactly reversed list.  For step levels of at most two steps (the only
shapes the plan templates produce) this coincides with order-insensitive
permutation equality, and in particular a two-alternative level stored as
[B, A] compares equal to canonical [A, B]; for three or more steps it is
strictly weaker than set comparison. -/
theorem C5_amended_same_steps_exact_or_reversed :
    (∀ is_s should_s : List NStep,
        same_steps is_s should_s = true ↔ (should_s = is_s ∨ should_s.reverse = is_s)) ∧
    (∀ x y : NStep, same_steps [x, y] [y, x] = true) ∧
    (∀ is_s should_s : List NStep, is_s.length ≤ 2 →
        (same_steps is_s should_s = true ↔ is_s.Perm should_s)) := by
  have key : ∀ is_s should_s : List NStep,
      same_steps is_s should_s = true ↔ (should_s = is_s ∨ should_s.reverse = is_s) := by
    intro a b
    unfold same_steps
    by_cases h1 : b = a
    · simp [h1]
    · by_cases h2 : b.reverse = a
      · simp [h1, h2]
      · simp [h1, h2]
  refine ⟨key, ?_, ?_⟩
  · intro x y
    simp [same_steps]
  · intro a b hlen
    rw [key a b]
    constructor
    · intro h
      rcases h with h | h
      · rw [h]
      · rw [← h]
        exact b.reverse_perm
    · intro hperm
      rcases a with _ | ⟨x, a1⟩
      · left
        exact List.perm_nil.mp hperm.symm
      rcases a1 with _ | ⟨y, a2⟩
      · left
        exact List.perm_singleton.mp hperm.symm
      rcases a2 with _ | ⟨z, a3⟩
      · obtain ⟨u, v, rfl⟩ : ∃ u v, b = [u, v] :=
          List.length_eq_two.mp (by simpa using hperm.length_eq.symm)
        rcases List.mem_cons.mp (hperm.mem_iff.mp (List.mem_cons_self x [y])) with hxu | hxv
        · subst hxu
          have h2 : [y] = [v] := List.perm_singleton.mp hperm.cons_inv
          have h3 : y = v := by
            injection h2 with h3 _
          subst h3
          exact Or.inl rfl
        · have hxv' : x = v := List.mem_singleton.mp hxv
          subst hxv'
          rcases List.mem_cons.mp (hperm.mem_iff.mp (List.mem_cons_of_mem x
              (List.mem_singleton.mpr rfl))) with hyu | hyv
          · subst hyu
            exact Or.inr rfl
          · have hyx : y = x := List.mem_singleton.mp hyv
            subst hyx
            rcases List.mem_cons.mp (hperm.symm.mem_iff.mp (List.mem_cons_self u [y])) with huy | huy
            · subst huy
              exact Or.inl rfl
            · have huy' : u = y := List.mem_singleton.mp huy
              subst huy'
              exact Or.inl rfl
      · exfalso
        simp at hlen

/-- Claim C8: prune_target attempts the hard delete first, downgrades an
IntegrityError to a soft deactivation of the target, and never lets an
exception escape (any other store error is only logged), so the enclosing
loop continues. -/
theorem C8_prune_target_downgrades_integrity_error
    (delete_result : String → String → DeleteOutcome) (name ty : String) :
    (prune_target delete_result name ty).err = none ∧
    (prune_target delete_result name ty).effects.head? = some (Effect.deleteTarget name ty) ∧
    (delete_result name ty = DeleteOutcome.integrityError →
      (prune_target delete_result name ty).effects =
        [Effect.deleteTarget name ty, Effect.setTargetInactive name ty]) ∧
    (delete_result name ty = DeleteOutcome.ok →
      (prune_target delete_result name ty).effects = [Effect.deleteTarget name ty]) := by
  unfold prune_target
  cases h : delete_result name ty <;> simp_all

/-- Witness for C8 at a concrete store outcome. -/
theorem C8_witness :
    (prune_target (fun _ _ => DeleteOutcome.integrityError) "t1" "team").effects =
      [Effect.deleteTarget "t1" "team", Effect.setTargetInactive "t1" "team"] :=
  (C8_prune_target_downgrades_integrity_error
    (fun _ _ => DeleteOutcome.integrityError) "t1" "team").2.2.1 rfl

/-- Claim C3: when the upstream user fetch yields an empty user map (and
the oncall api url is configured, so the fetch is reached), sync_from_oncall
returns before any mutation: no effects, no exception, and the abort is
logged. -/
theorem C3_empty_user_fetch_aborts_without_mutation (env : SyncEnv) (u : String)
    (hurl : env.oncall_base_url = some u)
    (hfetch : fetch_users_from_oncall env.phoneOracle env.users_fetch = Except.ok []) :
    (sync_from_oncall env).effects = [] ∧ (sync_from_oncall env).err = none ∧
    "No users found. Bailing." ∈ (sync_from_oncall env).logs := by
  unfold sync_from_oncall
  rw [hurl, hfetch]
  simp [Run.ofLogs]

/-- Witness for C3: the sample environment with a roster that returns no
active users. -/
theorem C3_witness :
    (sync_from_oncall { sampleEnv with users_fetch := FetchUsersOutcome.ok [] }).effects = [] ∧
    (sync_from_oncall { sampleEnv with users_fetch := FetchUsersOutcome.ok [] }).err = none ∧
    "No users found. Bailing." ∈
      (sync_from_oncall { sampleEnv with users_fetch := FetchUsersOutcome.ok [] }).logs :=
  C3_empty_user_fetch_aborts_without_mutation
    { sampleEnv with users_fetch := FetchUsersOutcome.ok [] } "http://oncall" rfl rfl

/-- Witness for C5: applying the amended theorem at a concrete singleton
level, discharging its length hypothesis. -/
theorem C5_witness :
    same_steps [nstep_of private_step_0 (some 1)] [nstep_of private_step_0 (some 1)] = true :=
  (C5_amended_same_steps_exact_or_reversed.2.2 _ _ (by decide)).mpr (List.Perm.refl _)

/-- The environment of the C4 counterexample: a fresh scrum team
`team9-24x7-builtin` upstream whose three derived private plans all fail
step validation (no allowed roles resolve: the plan targets were never
inserted), plus a local user `gone` that is absent upstream and would be
pruned at the end of the pass. -/
def envC4 : SyncEnv :=
  { sampleEnv with
    teams_fetch := FetchTeamsOutcome.ok ["team9-24x7-builtin"]
    iris_users := [("gone", [("sms", "+31 9")])]
    cp := { sampleCp with allowed_roles := fun _ => [] } }

/-- Claim C4 counterexample: the validation error raised by create_plan is
not caught by sync_from_oncall, so the pass aborts: the first private plan
of team9 fails, and neither the two remaining derived plans are created
nor is the stale user `gone` pruned.  The full run equals the user phase
plus the team target insert, ending in the propagated HTTPBadRequest. -/
theorem C4_counterexample_validation_error_aborts_pass :
    sync_from_oncall envC4 =
      ⟨[Effect.insertUserTarget "u1", Effect.insertUserRow "u1",
        Effect.upsertContact "u1" "sms" "+31 123",
        Effect.insertTeamTarget "team9-24x7-builtin"], [],
        some (PyErr.httpBadRequest "Invalid plan")⟩ ∧
    (get_default_plans_env envC4 "team9").map (fun l => l.map (fun p => p.name)) =
      Except.ok ["team9-24x7-private-builtin", "team9-businesshours-private-builtin",
        "team9-workhours-private-builtin"] ∧
    (∀ n d c, Effect.insertPlan n d c ∉ (sync_from_oncall envC4).effects) ∧
    Effect.deleteTarget "gone" "user" ∉ (sync_from_oncall envC4).effects := by
  refine ⟨rfl, rfl, ?_, ?_⟩
  · intro n d c
    have h : (sync_from_oncall envC4).effects =
        [Effect.insertUserTarget "u1", Effect.insertUserRow "u1",
         Effect.upsertContact "u1" "sms" "+31 123",
         Effect.insertTeamTarget "team9-24x7-builtin"] := rfl
    rw [h]
    simp
  · have h : (sync_from_oncall envC4).effects =
        [Effect.insertUserTarget "u1", Effect.insertUserRow "u1",
         Effect.upsertContact "u1" "sms" "+31 123",
         Effect.insertTeamTarget "team9-24x7-builtin"] := rfl
    rw [h]
    decide

/-- Claim C4, amended: a step whose target resolves no allowed roles makes
create_plan raise HTTPBadRequest with nothing committed for that plan, and
because sync_from_oncall installs no handler the error short-circuits the
provisioning loop: no effect of any later plan in the list is issued. -/
theorem C4_amended_validation_error_propagates
    (cp : CreatePlanEnv) (team : String) (p : PlanSpec) (others : List PlanSpec)
    (s : Step) (ss : List Step) (rest : List (List Step)) (pid : Nat)
    (hpri : lookupStr cp.priorities s.priority = some pid)
    (hallowed : cp.allowed_roles s.target = [])
    (hsteps : p.all_steps = (s :: ss) :: rest) :
    create_plan cp team p.name p.all_steps p.step_count p.description =
      Except.error (PyErr.httpBadRequest "Invalid plan") ∧
    run_list (fun q => Run.ofExcept
        (create_plan cp team q.name q.all_steps q.step_count q.description)) (p :: others) =
      ⟨[], [], some (PyErr.httpBadRequest "Invalid plan")⟩ := by
  have h1 : create_plan cp team p.name p.all_steps p.step_count p.description =
      Except.error (PyErr.httpBadRequest "Invalid plan") := by
    rw [create_plan, hsteps]
    show (match create_plan_steps cp cp.new_plan_id 1 ((s :: ss) :: rest) with
      | Except.error e => Except.error e
      | Except.ok es => Except.ok (Effect.insertPlan p.name p.description p.step_count :: es ++
          [Effect.upsertPlanActive p.name cp.new_plan_id])) =
      Except.error (PyErr.httpBadRequest "Invalid plan")
    rw [create_plan_steps, create_plan_group, hpri, hallowed]
    simp
  refine ⟨h1, ?_⟩
  show Run.andThen (Run.ofExcept
      (create_plan cp team p.name p.all_steps p.step_count p.description)) _ = _
  rw [h1]
  rfl

/-- Witness for C4 amended, at a concrete plan whose first step target has
no allowed roles. -/
theorem C4_amended_witness :
    create_plan { sampleCp with allowed_roles := fun _ => [] } "team9"
      "team9-24x7-private-builtin"
      [[{ private_step_0 with target := some "team9-24x7-builtin" }]] 1
      "Simple plan without escalation (24x7)" =
      Except.error (PyErr.httpBadRequest "Invalid plan") :=
  (C4_amended_validation_error_propagates
    { sampleCp with allowed_roles := fun _ => [] } "team9"
    ⟨"team9-24x7-private-builtin", "Simple plan without escalation (24x7)", 1,
      [[{ private_step_0 with target := some "team9-24x7-builtin" }]], "private-24x7"⟩ []
    { private_step_0 with target := some "team9-24x7-builtin" } [] [] 10 rfl rfl rfl).1

/-- Claim C6, amended: the base name used for classification membership
and plan naming in get_default_plans is the segment before the first
hyphen of the team name after deleting every occurrence of "-builtin"
(so other hyphenated segments are dropped, not kept); the whole result of
get_default_plans depends on the team name only through that base name and
the scrum-prefix test.  The bol_teams computation in sync_from_oncall is
the separate strip_team_name, which removes "-builtin" and every
"-timeperiod" substring and keeps other segments. -/
theorem C6_amended_base_name_first_segment :
    (∀ (m : List (String × String)) (pt st se : List String) (sc : List (String × String))
        (t1 t2 : String),
        bol_teamname t1 = bol_teamname t2 →
        pyStartsWith t1 scrumteamPfx = pyStartsWith t2 scrumteamPfx →
        get_default_plans m t1 pt st se sc = get_default_plans m t2 pt st se sc) ∧
    bol_teamname "alpha-beta-24x7-builtin" = "alpha" ∧
    strip_team_name "alpha-beta-24x7-builtin" = "alpha-beta" := by
  refine ⟨?_, rfl, rfl⟩
  intro m pt st se sc t1 t2 hb hs
  have hirr : ∀ (pty : String) (a b c d : Option String),
      get_default_plan_steps t1 pty a b c d = get_default_plan_steps t2 pty a b c d :=
    fun _ _ _ _ _ => rfl
  simp only [get_default_plans, hb, hs, hirr]

/-- Witness for C6 amended at identical team names. -/
theorem C6_witness :
    get_default_plans [] "team9" [] [] [] [] = get_default_plans [] "team9" [] [] [] [] ∧
    bol_teamname "alpha-beta-24x7-builtin" = "alpha" :=
  ⟨C6_amended_base_name_first_segment.1 [] [] [] [] [] "team9" "team9" rfl rfl,
   C6_amended_base_name_first_segment.2.1⟩

/-- The three private plans the scrum branch of get_default_plans appends
for base name `bol` (source lines 1087-1111). -/
def private_plans_of (team bol : String) : List PlanSpec :=
  let q1 := get_default_plan_steps team "private-24x7"
    (some (bol ++ "-24x7" ++ immutable_suffix)) none none none
  let q2 := get_default_plan_steps team "private-businesshours"
    (some (bol ++ "-businesshours" ++ immutable_suffix)) none none none
  let q3 := get_default_plan_steps team "private-workhours"
    (some (bol ++ "-workhours" ++ immutable_suffix)) none none none
  [⟨bol ++ "-24x7" ++ private_suffix ++ immutable_suffix, q1.1, q1.2.1, q1.2.2, "private-24x7"⟩,
   ⟨bol ++ "-businesshours" ++ private_suffix ++ immutable_suffix, q2.1, q2.2.1, q2.2.2,
     "private-businesshours"⟩,
   ⟨bol ++ "-workhours" ++ private_suffix ++ immutable_suffix, q3.1, q3.2.1, q3.2.2,
     "private-workhours"⟩]

/-- Claim C7, amended: for a scrum-prefixed team not claimed by an earlier
branch, a team missing from the scrum-team table has its scrum plans
skipped (without any log call) while the private plans are still derived;
but a team present in the table whose space is missing from the
space-to-SRT mapping raises an uncaught KeyError, so derivation aborts and
not even the private plans are returned. -/
theorem C7_amended_space_lookup_failure_aborts :
    (∀ (m : List (String × String)) (t : String) (pt st se : List String)
        (sc : List (String × String)),
        pt.contains (bol_teamname t) = false →
        st.contains (bol_teamname t) = false →
        se.contains (bol_teamname t) = false →
        pyStartsWith t scrumteamPfx = true →
        lookupStr sc (bol_teamname t) = none →
        get_default_plans m t pt st se sc = Except.ok (private_plans_of t (bol_teamname t))) ∧
    (∀ (m : List (String × String)) (t : String) (pt st se : List String)
        (sc : List (String × String)) (space : String),
        pt.contains (bol_teamname t) = false →
        st.contains (bol_teamname t) = false →
        se.contains (bol_teamname t) = false →
        pyStartsWith t scrumteamPfx = true →
        lookupStr sc (bol_teamname t) = some space →
        lookupStr m space = none →
        get_default_plans m t pt st se sc = Except.error (PyErr.keyError space)) := by
  constructor
  · intro m t pt st se sc h1 h2 h3 h4 h5
    simp only [get_default_plans, h1, h2, h3, h4, h5, private_plans_of]
    rfl
  · intro m t pt st se sc space h1 h2 h3 h4 h5 h6
    simp only [get_default_plans, h1, h2, h3, h4, h5, h6]
    rfl

/-- Witness for C7 amended: both conjuncts applied at concrete inputs. -/
theorem C7_witness :
    get_default_plans [] "team9" [] [] [] [] =
      Except.ok (private_plans_of "team9" "team9") ∧
    get_default_plans [] "team1" [] [] [] [("team1", "spaceY")] =
      Except.error (PyErr.keyError "spaceY") :=
  ⟨C7_amended_space_lookup_failure_aborts.1 [] "team9" [] [] [] [] rfl rfl rfl rfl rfl,
   C7_amended_space_lookup_failure_aborts.2 [] "team1" [] [] [] [("team1", "spaceY")]
     "spaceY" rfl rfl rfl rfl rfl rfl⟩

/-- A phone oracle that fails to parse the number `bad`. -/
def badOracle : String → Option String :=
  fun s => if s = "bad" then none else some ("+31 " ++ s)

/-- The C9 environment: one active roster user whose sms number does not
parse. -/
def envC9 : SyncEnv :=
  { sampleEnv with
    phoneOracle := badOracle
    users_fetch := FetchUsersOutcome.ok [⟨"u1", true, [("sms", "bad")]⟩] }

/-- Claim C9 counterexample: for a roster-fetched user an unparsable phone
number is not swallowed: NumberParseException escapes
fetch_users_from_oncall (whose except clause names only ValueError,
KeyError and RequestException) and aborts the whole sync pass with no
effects. -/
theorem C9_counterexample_roster_parse_failure_aborts :
    fetch_users_from_oncall badOracle
      (FetchUsersOutcome.ok [⟨"u1", true, [("sms", "bad")]⟩]) =
      Except.error PyErr.numberParseExc ∧
    sync_from_oncall envC9 = ⟨[], [], some PyErr.numberParseExc⟩ := by
  exact ⟨rfl, rfl⟩

theorem fix_contact_key_err_is_parse (oracle : String → Option String)
    (cs : List (String × String)) (k : String) (e : PyErr)
    (h : fix_contact_key oracle cs k = Except.error e) : e = PyErr.numberParseExc := by
  unfold fix_contact_key at h
  cases hl : lookupStr cs k with
  | none =>
    rw [hl] at h
    exact absurd h (by simp)
  | some v =>
    rw [hl] at h
    dsimp only at h
    by_cases hv : v = ""
    · rw [if_pos hv] at h
      exact absurd h (by simp)
    · rw [if_neg hv] at h
      unfold normalize_phone_number at h
      cases ho : oracle v with
      | some nv =>
        rw [ho] at h
        exact absurd h (by simp)
      | none =>
        rw [ho] at h
        simp only [Except.error.injEq] at h
        exact h.symm

theorem fix_user_contacts_err_is_parse (oracle : String → Option String)
    (cs : List (String × String)) (e : PyErr)
    (h : fix_user_contacts oracle cs = Except.error e) : e = PyErr.numberParseExc := by
  unfold fix_user_contacts at h
  cases h1 : fix_contact_key oracle cs "sms" with
  | error e1 =>
    rw [h1] at h
    simp only [Except.error.injEq] at h
    exact h ▸ fix_contact_key_err_is_parse oracle cs "sms" e1 h1
  | ok c1 =>
    rw [h1] at h
    exact fix_contact_key_err_is_parse oracle c1 "call" e h

theorem build_oncall_users_err_of_bad_user (oracle : String → Option String) :
    ∀ (users : List OncallUser) (u : OncallUser), u ∈ users → u.active = true →
      (∃ e, fix_user_contacts oracle u.contacts = Except.error e) →
      build_oncall_users oracle users = Except.error PyErr.numberParseExc
  | [], u, hu, _, _ => absurd hu (List.not_mem_nil u)
  | u0 :: rest, u, hu, hact, hbad => by
    unfold build_oncall_users
    by_cases ha : u0.active
    · rw [if_pos ha]
      cases h0 : fix_user_contacts oracle u0.contacts with
      | error e0 =>
        rw [fix_user_contacts_err_is_parse oracle u0.contacts e0 h0]
      | ok c =>
        rcases List.mem_cons.mp hu with rfl | hu'
        · obtain ⟨e, hfix⟩ := hbad
          rw [hfix] at h0
          exact absurd h0 (by simp)
        · rw [build_oncall_users_err_of_bad_user oracle rest u hu' hact hbad]
    · rw [if_neg ha]
      rcases List.mem_cons.mp hu with rfl | hu'
      · exact absurd hact ha
      · exact build_oncall_users_err_of_bad_user oracle rest u hu' hact hbad

/-- Claim C9, amended: a preset user with an unparsable number has that
contact channel nulled and the sync is unaffected; but for roster-fetched
users the only exception fix_user_contacts can raise is
NumberParseException, which the except clause of fetch_users_from_oncall
does not name, so one active roster user with an unparsable number makes
the fetch, and with it the whole sync pass, abort. -/
theorem C9_amended_roster_parse_failure_propagates :
    (∀ (oracle : String → Option String) (name sms : String) (call : Option String),
        oracle sms = none →
        get_predefined_users oracle (some [⟨name, some sms, call⟩]) =
          [(name, [("name", some name), ("sms", none), ("call", preset_contact oracle call)])]) ∧
    (∀ (oracle : String → Option String) (cs : List (String × String)) (e : PyErr),
        fix_user_contacts oracle cs = Except.error e → e = PyErr.numberParseExc) ∧
    (∀ (oracle : String → Option String) (users : List OncallUser) (u : OncallUser),
        u ∈ users → u.active = true →
        (∃ e, fix_user_contacts oracle u.contacts = Except.error e) →
        fetch_users_from_oncall oracle (FetchUsersOutcome.ok users) =
          Except.error PyErr.numberParseExc) ∧
    (∀ (env : SyncEnv) (url : String) (e : PyErr),
        env.oncall_base_url = some url →
        fetch_users_from_oncall env.phoneOracle env.users_fetch = Except.error e →
        sync_from_oncall env = ⟨[], [], some e⟩) := by
  refine ⟨?_, fix_user_contacts_err_is_parse, ?_, ?_⟩
  · intro oracle name sms call h
    simp [get_predefined_users, preset_contact, h]
  · intro oracle users u hu hact hbad
    unfold fetch_users_from_oncall
    dsimp only
    rw [build_oncall_users_err_of_bad_user oracle users u hu hact hbad]
    rfl
  · intro env url e hurl hfetch
    unfold sync_from_oncall
    rw [hurl, hfetch]
    dsimp only
    rfl

/-- Witness for C9 amended: the preset path nulls the channel, and the
roster path aborts the concrete C9 run. -/
theorem C9_witness :
    get_predefined_users badOracle (some [⟨"p1", some "bad", none⟩]) =
      [("p1", [("name", some "p1"), ("sms", none), ("call", none)])] ∧
    sync_from_oncall envC9 = ⟨[], [], some PyErr.numberParseExc⟩ :=
  ⟨C9_amended_roster_parse_failure_propagates.1 badOracle "p1" "bad" none rfl,
   C9_amended_roster_parse_failure_propagates.2.2.2 envC9 "http://oncall"
     PyErr.numberParseExc rfl
     (C9_amended_roster_parse_failure_propagates.2.2.1 badOracle
       [⟨"u1", true, [("sms", "bad")]⟩] ⟨"u1", true, [("sms", "bad")]⟩
       (List.mem_singleton.mpr rfl) rfl ⟨PyErr.numberParseExc, rfl⟩)⟩

/-!  Facts feeding the C10 proof: none of the per-user phases can raise,
and the deactivation body issues its statements. -/

theorem prune_target_err_none (delete_result : String → String → DeleteOutcome)
    (name ty : String) : (prune_target delete_result name ty).err = none := by
  unfold prune_target
  cases delete_result name ty <;> rfl

theorem user_phase_err_none (env : SyncEnv)
    (us : List (String × List (String × String))) : (user_phase env us).err = none := by
  unfold user_phase
  rw [Run.err_andThen _ (run_list_err_none _ _ (fun _ _ => rfl))]
  exact run_list_err_none _ _ (fun _ _ => rfl)

theorem deactivate_team_err_none (env : SyncEnv) (t : String) (l : List PlanSpec)
    (h : get_default_plans_env env t = Except.ok l) :
    (deactivate_team env t).err = none := by
  unfold deactivate_team
  rw [Run.err_andThen _ (prune_target_err_none env.delete_result t "team")]
  simp only [h]

theorem deactivate_team_mem_delete (env : SyncEnv) (t : String) :
    Effect.deleteTarget t "team" ∈ (deactivate_team env t).effects := by
  unfold deactivate_team
  apply Run.mem_andThen_left
  unfold prune_target
  cases env.delete_result t "team" <;> simp

theorem deactivate_team_mem_inactive (env : SyncEnv) (t : String)
    (h : env.delete_result t "team" = DeleteOutcome.integrityError) :
    Effect.setTargetInactive t "team" ∈ (deactivate_team env t).effects := by
  unfold deactivate_team
  apply Run.mem_andThen_left
  unfold prune_target
  rw [h]
  simp

theorem deactivate_team_mem_deactivate (env : SyncEnv) (t : String) (l : List PlanSpec)
    (h : get_default_plans_env env t = Except.ok l) (p : PlanSpec) (hp : p ∈ l)
    (pid : Nat) (hpid : env.plan_ids p.name = some pid) :
    Effect.deactivatePlan pid ∈ (deactivate_team env t).effects := by
  unfold deactivate_team
  apply Run.mem_andThen_right (prune_target_err_none env.delete_result t "team")
  dsimp only
  rw [h]
  exact List.mem_filterMap.mpr ⟨p, hp, by rw [hpid]; rfl⟩

/-- Claim C10: with a non-empty upstream user fetch but an empty team
fetch (which is what any transport or parse failure produces), the pass
does not abort: it logs the missing team list, treats every locally stored
team as absent upstream (hard delete attempted, soft deactivation on an
integrity conflict), and removes the active pointer of every existing plan
the team's classification derives.  The side conditions are the nominal
run: NOOP off, purge_old_users on, and plan derivation succeeding for each
local team. -/
theorem C10_empty_team_fetch_deactivates_all_teams (env : SyncEnv) (url : String)
    (us : List (String × List (String × String)))
    (hurl : env.oncall_base_url = some url)
    (hus : fetch_users_from_oncall env.phoneOracle env.users_fetch = Except.ok us)
    (hne : us ≠ [])
    (hteams : fetch_teams_from_oncall env.teams_fetch = [])
    (hnoop : env.noop = false)
    (hpurge : env.purge_old_users = true)
    (hplans : ∀ t ∈ env.iris_team_names, ∃ l, get_default_plans_env env t = Except.ok l) :
    fetch_teams_from_oncall FetchTeamsOutcome.transportError = [] ∧
    (sync_from_oncall env).err = none ∧
    "We do not have a list of team names" ∈ (sync_from_oncall env).logs ∧
    teams_to_deactivate_of env = env.iris_team_names ∧
    (∀ t ∈ env.iris_team_names,
        Effect.deleteTarget t "team" ∈ (sync_from_oncall env).effects ∧
        (env.delete_result t "team" = DeleteOutcome.integrityError →
          Effect.setTargetInactive t "team" ∈ (sync_from_oncall env).effects) ∧
        (∀ l, get_default_plans_env env t = Except.ok l →
          ∀ p ∈ l, ∀ pid, env.plan_ids p.name = some pid →
            Effect.deactivatePlan pid ∈ (sync_from_oncall env).effects)) := by
  have hie : us.isEmpty = false := by
    cases us with
    | nil => exact absurd rfl hne
    | cons a l => rfl
  have hsync : sync_from_oncall env = sync_body env us := by
    unfold sync_from_oncall
    rw [hurl, hus]
    dsimp only
    rw [hie]
    rfl
  have hot : oncall_team_names_of env = [] := by
    unfold oncall_team_names_of
    rw [hteams]
    rfl
  have hti : teams_to_insert_of env = [] := by
    unfold teams_to_insert_of
    rw [hot]
    rfl
  have htu : teams_to_update_of env = [] := by
    unfold teams_to_update_of
    rw [hot]
    rfl
  have htd : teams_to_deactivate_of env = env.iris_team_names := by
    unfold teams_to_deactivate_of
    rw [hot]
    exact filter_not_contains_nil _
  have htp : team_phase env = Run.pure0 := by
    unfold team_phase
    rw [hti, htu]
    rfl
  have hdeact_err : ∀ t ∈ env.iris_team_names, (deactivate_team env t).err = none := by
    intro t ht
    obtain ⟨l, hl⟩ := hplans t ht
    exact deactivate_team_err_none env t l hl
  have hpp : purge_phase env us =
      Run.andThen
        (run_list (fun u => prune_target env.delete_result u "user")
          (users_to_mark_inactive_of env us))
        (fun _ => run_list (deactivate_team env) env.iris_team_names) := by
    unfold purge_phase
    rw [hpurge, htd]
    rfl
  have hpp_err : (purge_phase env us).err = none := by
    rw [hpp]
    rw [Run.err_andThen _
      (run_list_err_none _ _ (fun x _ => prune_target_err_none env.delete_result x "user"))]
    exact run_list_err_none _ _ hdeact_err
  have hmem_purge : ∀ {e : Effect},
      e ∈ (purge_phase env us).effects → e ∈ (sync_from_oncall env).effects := by
    intro e he
    rw [hsync]
    unfold sync_body
    apply Run.mem_andThen_right rfl
    apply Run.mem_andThen_right (user_phase_err_none env us)
    rw [hnoop]
    simp only [Bool.false_eq_true, if_false]
    apply Run.mem_andThen_right (by rw [htp]; rfl)
    exact he
  have hmem_deact : ∀ {e : Effect},
      e ∈ (run_list (deactivate_team env) env.iris_team_names).effects →
        e ∈ (sync_from_oncall env).effects := by
    intro e he
    apply hmem_purge
    rw [hpp]
    exact Run.mem_andThen_right
      (run_list_err_none _ _ (fun x _ => prune_target_err_none env.delete_result x "user")) he
  refine ⟨rfl, ?_, ?_, htd, ?_⟩
  · rw [hsync]
    unfold sync_body
    rw [Run.err_andThen _ rfl]
    rw [Run.err_andThen _ (user_phase_err_none env us)]
    rw [hnoop]
    simp only [Bool.false_eq_true, if_false]
    rw [Run.err_andThen _ (by rw [htp]; rfl)]
    exact hpp_err
  · rw [hsync]
    unfold sync_body
    apply Run.mem_logs_andThen_left
    rw [hteams]
    simp [Run.ofLogs]
  · intro t ht
    refine ⟨?_, ?_, ?_⟩
    · exact hmem_deact (run_list_mem_effects _ env.iris_team_names t ht hdeact_err
        (deactivate_team_mem_delete env t))
    · intro hint
      exact hmem_deact (run_list_mem_effects _ env.iris_team_names t ht hdeact_err
        (deactivate_team_mem_inactive env t hint))
    · intro l hl p hp pid hpid
      exact hmem_deact (run_list_mem_effects _ env.iris_team_names t ht hdeact_err
        (deactivate_team_mem_deactivate env t l hl p hp pid hpid))

/-- The C10 witness environment: the team fetch fails while one team is
stored locally. -/
def envC10 : SyncEnv :=
  { sampleEnv with
    teams_fetch := FetchTeamsOutcome.transportError
    iris_team_names := ["team9-24x7-builtin"] }

/-- Witness for C10 at a concrete failing team fetch. -/
theorem C10_witness :
    (sync_from_oncall envC10).err = none ∧
    Effect.deleteTarget "team9-24x7-builtin" "team" ∈ (sync_from_oncall envC10).effects := by
  have h := C10_empty_team_fetch_deactivates_all_teams envC10 "http://oncall"
    [("u1", [("sms", "+31 123")])] rfl rfl (by decide) rfl rfl rfl
    (by
      intro t ht
      have ht' := List.mem_singleton.mp ht
      subst ht'
      exact ⟨_, rfl⟩)
  exact ⟨h.2.1, (h.2.2.2.2 "team9-24x7-builtin" (List.mem_singleton.mpr rfl)).1⟩

end IrisSync
